import Mathlib

/-!
Shallow embedding of the per-service request lifecycle of the mproxy
reverse proxy: the response-buffer middleware (`response_buffer_middleware.go`)
and the `Service` type (`service.go`), together with models of the `Buffer`,
`Target` and `PauseControl` collaborators that the embedded code calls.

Byte payloads are tracked by length (`Nat`): every claim under verification
depends only on byte counts, statuses, headers and log lines, never on the
bytes themselves.
-/

namespace Server

/-- The distinguished errors that flow through the embedded code paths. -/
inductive ProxyErr where
  | maximumSizeExceeded
  | targetUnavailable
  | other (msg : String)
deriving Repr, DecidableEq

/-- Log levels of the `log/slog` records emitted by the embedded code. -/
inductive LogLevel where
  | debug
  | info
  | warn
  | error
deriving Repr, DecidableEq

/-- One structured log record: its level and its message. -/
structure LogLine where
  level : LogLevel
  msg : String
deriving Repr, DecidableEq

/-- Model of the underlying `http.ResponseWriter`: the status sent to the
client (the first `WriteHeader` wins, as in `net/http`), the response headers
(`Set` semantics: the most recent value for a key, kept at the front), and the
number of body bytes written. -/
structure ResponseRecorder where
  status : Option Nat
  headers : List (String × String)
  bodyLen : Nat
deriving Repr, DecidableEq

def ResponseRecorder.new : ResponseRecorder :=
  { status := none, headers := [], bodyLen := 0 }

/-- `w.WriteHeader(code)`: only the first call takes effect. -/
def ResponseRecorder.writeHeader (rw : ResponseRecorder) (code : Nat) : ResponseRecorder :=
  match rw.status with
  | some _ => rw
  | none => { rw with status := some code }

/-- `w.Header().Set(k, v)`: the freshest binding is consed on and shadows
older ones. -/
def ResponseRecorder.setHeader (rw : ResponseRecorder) (k v : String) : ResponseRecorder :=
  { rw with headers := (k, v) :: rw.headers }

/-- Read back a header: the first (most recent) binding for the key. -/
def ResponseRecorder.getHeader (rw : ResponseRecorder) (k : String) : Option String :=
  (rw.headers.find? (fun p => p.1 = k)).map (fun p => p.2)

/-- `w.Write(data)`: an implicit `WriteHeader(200)` if none was sent, then the
body grows. -/
def ResponseRecorder.write (rw : ResponseRecorder) (len : Nat) : ResponseRecorder :=
  let rw := rw.writeHeader 200
  { rw with bodyLen := rw.bodyLen + len }

/-- `http.Error(w, msg, code)`: sets the plain-text content type, sends the
status code, and writes the message plus a newline. -/
def ResponseRecorder.httpError (rw : ResponseRecorder) (code : Nat) (msg : String) :
    ResponseRecorder :=
  (((rw.setHeader "Content-Type" "text/plain; charset=utf-8").setHeader
      "X-Content-Type-Options" "nosniff").writeHeader code).write (msg.length + 1)

/-! ### Buffer

The `Buffer` type itself (`buffer.go`) is not among the provided sources;
only the middleware that drives it is. It is modelled from the spec,
section 4.1. -/

/-- Modelled from the spec: the `Buffer` of `buffer.go` (not under the
provided sources). Parameters `maxBytes` (N) and `maxMemBytes` (M); `size` is
the number of bytes accepted so far; `spilled` records the InMemory to
Spilled transition at M; `overflowed` is set once a write would push the
total past N, after which the buffer accepts nothing more and `Send` fails
fast. -/
structure Buffer where
  maxBytes : Nat
  maxMemBytes : Nat
  size : Nat
  spilled : Bool
  overflowed : Bool
deriving Repr, DecidableEq

/-- `NewBufferedWriteCloser(maxBytes, maxMemBytes)`: a fresh, empty,
in-memory buffer. -/
def Buffer.new (maxBytes maxMemBytes : Nat) : Buffer :=
  { maxBytes := maxBytes, maxMemBytes := maxMemBytes, size := 0,
    spilled := false, overflowed := false }

/-- Modelled from the spec: `Buffer.Write`. Appends; spills to disk past M;
past N marks the buffer overflowed and returns the distinguished overflow
error (as do all subsequent writes). Returns the updated buffer, the count
reported to the caller, and the error. -/
def Buffer.write (b : Buffer) (len : Nat) : Buffer × Nat × Option ProxyErr :=
  if b.overflowed then
    (b, 0, some .maximumSizeExceeded)
  else if b.size + len > b.maxBytes then
    ({ b with overflowed := true }, 0, some .maximumSizeExceeded)
  else
    ({ b with size := b.size + len, spilled := b.spilled || decide (b.size + len > b.maxMemBytes) },
      len, none)

/-- Modelled from the spec: `Buffer.Send(sink)`. If overflowed, fail with
`MaximumSizeExceeded`; otherwise stream the entire buffered content to the
sink. -/
def Buffer.send (b : Buffer) (rw : ResponseRecorder) : Option ProxyErr × ResponseRecorder :=
  if b.overflowed then
    (some .maximumSizeExceeded, rw)
  else
    (none, rw.write b.size)

/-! ### bufferedResponseWriter and ResponseBufferMiddleware

Embedded from `internal/server/response_buffer_middleware.go`. -/

/-- The `bufferedResponseWriter` wrapper: captured status code, the response
buffer, and whether the connection has been hijacked. -/
structure BufferedResponseWriter where
  statusCode : Nat
  buffer : Buffer
  hijacked : Bool
deriving Repr, DecidableEq

/-- The writer the middleware hands to the downstream handler: status 200,
fresh buffer, not hijacked. -/
def BufferedResponseWriter.new (maxBytes maxMemBytes : Nat) : BufferedResponseWriter :=
  { statusCode := 200, buffer := Buffer.new maxBytes maxMemBytes, hijacked := false }

/-- The return-value logic of `bufferedResponseWriter.Write`, as a function of
the length requested by the caller and of the `(n, err)` pair the buffer
returned: an overflow error is swallowed and the full requested length is
reported (a short write would make the library reverse proxy panic); any
other outcome passes through. -/
def bufferedWriteReturn (dataLen n : Nat) (err : Option ProxyErr) : Nat × Option ProxyErr :=
  if err = some ProxyErr.maximumSizeExceeded then
    (dataLen, none)
  else
    (n, err)

/-- `bufferedResponseWriter.Write(data)`: write into the buffer, then report
per `bufferedWriteReturn`. -/
def BufferedResponseWriter.write (w : BufferedResponseWriter) (len : Nat) :
    BufferedResponseWriter × Nat × Option ProxyErr :=
  let (b, n, err) := w.buffer.write len
  ({ w with buffer := b }, bufferedWriteReturn len n err)

/-- `bufferedResponseWriter.WriteHeader(statusCode)`: record only. -/
def BufferedResponseWriter.writeHeader (w : BufferedResponseWriter) (statusCode : Nat) :
    BufferedResponseWriter :=
  { w with statusCode := statusCode }

/-- `bufferedResponseWriter.Hijack()`: when the underlying writer supports
hijacking, mark the wrapper hijacked and succeed; otherwise report
`http.ErrNotSupported` and leave the wrapper unchanged. -/
def BufferedResponseWriter.hijack (w : BufferedResponseWriter) (supported : Bool) :
    BufferedResponseWriter × Option ProxyErr :=
  if supported then
    ({ w with hijacked := true }, none)
  else
    (w, some (.other "feature not supported"))

/-- `bufferedResponseWriter.Send()`: an overflowed buffer fails fast with
`ErrMaximumSizeExceeded`; a hijacked connection is left alone; otherwise the
captured status is replayed and the buffer streamed to the underlying
writer. -/
def BufferedResponseWriter.send (w : BufferedResponseWriter) (rw : ResponseRecorder) :
    Option ProxyErr × ResponseRecorder :=
  if w.buffer.overflowed then
    (some .maximumSizeExceeded, rw)
  else if w.hijacked then
    (none, rw)
  else
    w.buffer.send (rw.writeHeader w.statusCode)

/-- One call the downstream handler makes against the wrapper it was
handed. -/
inductive HandlerAction where
  | write (len : Nat)
  | writeHeader (status : Nat)
  | hijack
deriving Repr, DecidableEq

/-- Run the downstream handler, represented by the list of calls it makes
against the wrapper. `supportsHijack` says whether the underlying writer
implements `http.Hijacker`. -/
def runActions (supportsHijack : Bool) (w : BufferedResponseWriter) :
    List HandlerAction → BufferedResponseWriter
  | [] => w
  | .write len :: rest => runActions supportsHijack (w.write len).1 rest
  | .writeHeader status :: rest => runActions supportsHijack (w.writeHeader status) rest
  | .hijack :: rest => runActions supportsHijack (w.hijack supportsHijack).1 rest

/-- Body bytes the handler asked to write, in total. -/
def totalWritten (actions : List HandlerAction) : Nat :=
  (actions.map (fun a => match a with | .write len => len | _ => 0)).sum

/-- `ResponseBufferMiddleware.ServeHTTP`: hand the downstream handler a
buffered writer over a fresh buffer, then `Send`; an overflow error becomes a
500 with one INFO log line, any other send error becomes a 500 with one ERROR
log line. Returns the state of the underlying writer and the log lines
emitted by the middleware. -/
def ResponseBufferMiddleware.serveHTTP (maxMemBytes maxBytes : Nat)
    (actions : List HandlerAction) (supportsHijack : Bool) (rw : ResponseRecorder) :
    ResponseRecorder × List LogLine :=
  let w := runActions supportsHijack (BufferedResponseWriter.new maxBytes maxMemBytes) actions
  match w.send rw with
  | (none, rw) => (rw, [])
  | (some err, rw) =>
    if err = ProxyErr.maximumSizeExceeded then
      (rw.httpError 500 "Internal Server Error",
        [{ level := .info, msg := "Response exceeded max response limit" }])
    else
      (rw.httpError 500 "Internal Server Error",
        [{ level := .error, msg := "Error sending response" }])

/-! ### ServiceOptions and the certificate manager

Embedded from `service.go`. -/

/-- Stand-in for the external `crypto/sha256` plus hex encoding used by
`ScopedCachePath`; the development never relies on its value, only on it
being a function of its argument. -/
def sha256Hex (s : String) : String :=
  "sha256-of-" ++ s

/-- `path.Join` for the two-segment case used by `ScopedCachePath`. -/
def pathJoin (a b : String) : String :=
  a ++ "/" ++ b

/-- The per-service options of `service.go`. -/
structure ServiceOptions where
  tlsHostname : String
  acmeDirectory : String
  acmeCachePath : String
  logHeaders : List String
deriving Repr, DecidableEq

/-- `ServiceOptions.RequireTLS`: TLS is required exactly when a TLS hostname
is configured. -/
def ServiceOptions.requireTLS (so : ServiceOptions) : Bool :=
  so.tlsHostname != ""

/-- `ServiceOptions.ScopedCachePath`: the certificate cache directory, scoped
by a hash of the ACME directory so that changing directories never reuses an
incompatible certificate. -/
def ServiceOptions.scopedCachePath (so : ServiceOptions) : String :=
  pathJoin so.acmeCachePath (sha256Hex so.acmeDirectory)

/-- The fields of the `autocert.Manager` that `createCertManager` populates:
cache directory, allowed hostname, and ACME directory URL. -/
structure CertManager where
  cachePath : String
  hostname : String
  directoryURL : String
deriving Repr, DecidableEq

/-! ### PauseControl

`pause_control.go` is not among the provided sources; the states and wait
outcomes its callers in `service.go` use are modelled from the spec,
section 4.4. -/

/-- Modelled from the spec: the `PauseControl` states
{Running, Paused, Stopped}. -/
inductive PauseState where
  | running
  | paused
  | stopped
deriving Repr, DecidableEq

/-- Modelled from the spec: the outcomes of `PauseControl.Wait`:
Proceed, TimedOut, or Unavailable. -/
inductive PauseWaitAction where
  | proceed
  | timedOut
  | unavailable
deriving Repr, DecidableEq

/-- Modelled from the spec: the `PauseControl` as its callers in `service.go`
see it — its current state. (`Wait` is time- and concurrency-dependent, so
the embedding of `ServeHTTP` takes the `Wait` outcome as an input.) -/
structure PauseControl where
  state : PauseState
deriving Repr, DecidableEq

/-- Modelled from the spec: `NewPauseControl` starts in the Running state. -/
def NewPauseControl : PauseControl :=
  { state := .running }

/-! ### Requests and context slots -/

/-- The per-request context cells the logging middleware allocates and the
Service/Target fill in. `none` means the cell is absent from the request
context (or the stored value has an unexpected type, which the source's
two-valued type assertion treats the same way); `some v` means the cell is
present and currently holds `v`. -/
structure RequestCtx where
  serviceSlot : Option String
  targetSlot : Option String
  headersSlot : Option (List String)
deriving Repr, DecidableEq

/-- The parts of an `*http.Request` the embedded code inspects. -/
structure Request where
  method : String
  host : String
  path : String
  query : String
  userAgent : String
  tls : Bool
  ctx : RequestCtx
deriving Repr, DecidableEq

/-- `r.URL.RequestURI()` for the requests at hand: the path, plus the query
string when one is present. -/
def Request.requestURI (r : Request) : String :=
  if r.query = "" then r.path else r.path ++ "?" ++ r.query

/-! ### Targets

`target.go` is not among the provided sources; the pieces `service.go` calls
(`NewTarget`, `StartRequest`, `IsHealthCheckRequest`, the target address and
options) are modelled from the spec, sections 3 and 4.5. -/

/-- Modelled from the spec: the Target states, with monotone progression
Adding, then Healthy, then Draining. -/
inductive TargetState where
  | adding
  | healthy
  | draining
deriving Repr, DecidableEq

/-- Modelled from the spec: the per-target options carried through JSON
round-trips: health-check path/interval/timeout, deploy timeout, response
size limits, and the per-request upstream timeout. Durations are in
nanoseconds, sizes in bytes. -/
structure TargetOptions where
  healthCheckPath : String
  healthCheckInterval : Nat
  healthCheckTimeout : Nat
  deployTimeout : Nat
  maxMemoryBufferSize : Nat
  maxResponseBodySize : Nat
  targetTimeout : Nat
deriving Repr, DecidableEq

/-- Modelled from the spec: a Target: upstream address, options, state, and
the in-flight request counter. -/
structure Target where
  address : String
  options : TargetOptions
  state : TargetState
  inflight : Nat
deriving Repr, DecidableEq

/-- Modelled from the spec: `NewTarget(address, options)` constructs a
target in the Adding state with no requests in flight. -/
def NewTarget (address : String) (options : TargetOptions) : Target :=
  { address := address, options := options, state := .adding, inflight := 0 }

/-- `Target.Target()`: the upstream address. -/
def Target.target (t : Target) : String :=
  t.address

/-- The user agent of the proxy's internal health-check prober. -/
def proberUserAgent : String :=
  "mproxy-prober"

/-- Modelled from the spec: `Target.IsHealthCheckRequest` holds exactly when
the method is GET, the path is the configured health-check path, and the
user agent indicates the internal prober. -/
def Target.isHealthCheckRequest (t : Target) (r : Request) : Bool :=
  r.method == "GET" && r.path == t.options.healthCheckPath && r.userAgent == proberUserAgent

/-- Modelled from the spec: `Target.StartRequest`. A draining target refuses
the claim with `TargetUnavailable` and does not increment; otherwise the
in-flight counter is incremented and the request context's `target` slot is
filled with the target's address. -/
def Target.startRequest (t : Target) (r : Request) : Except ProxyErr (Target × Request) :=
  if t.state == .draining then
    .error .targetUnavailable
  else
    .ok ({ t with inflight := t.inflight + 1 },
      { r with ctx := { r.ctx with targetSlot := r.ctx.targetSlot.map (fun _ => t.address) } })

/-! ### splitHostPort

`redirectToHTTPS` calls `net.SplitHostPort`; embedded here following the
standard library's algorithm: the port starts after the last colon, a
leading bracket delimits an IPv6 host, and malformed inputs are rejected. -/

/-- Index of the first occurrence of a character. -/
def findIdxOf (cs : List Char) (c : Char) : Option Nat :=
  cs.findIdx? (fun x => x = c)

/-- Index of the last occurrence of a character. -/
def findLastIdxOf (cs : List Char) (c : Char) : Option Nat :=
  (findIdxOf cs.reverse c).map (fun j => cs.length - 1 - j)

/-- `net.SplitHostPort(hostport)`: splits `host:port` or
`(bracketed-host):port` into host and port, rejecting inputs with no port,
stray colons, or stray brackets. -/
def splitHostPort (hostport : String) : Except String (String × String) :=
  let cs := hostport.toList
  match findLastIdxOf cs ':' with
  | none => .error "missing port in address"
  | some i =>
    let port := String.mk (cs.drop (i + 1))
    let checkTail (host : String) (j k : Nat) : Except String (String × String) :=
      if (findIdxOf (cs.drop j) '[').isSome then
        .error "unexpected opening bracket in address"
      else if (findIdxOf (cs.drop k) ']').isSome then
        .error "unexpected closing bracket in address"
      else
        .ok (host, port)
    if cs.head? = some '[' then
      match findIdxOf cs ']' with
      | none => .error "missing closing bracket in address"
      | some e =>
        if e + 1 = cs.length then
          .error "missing port in address"
        else if e + 1 = i then
          checkTail (String.mk ((cs.drop 1).take (e - 1))) 1 (e + 1)
        else if cs.get? (e + 1) = some ':' then
          .error "too many colons in address"
        else
          .error "missing port in address"
    else
      let host := cs.take i
      if (findIdxOf host ':').isSome then
        .error "too many colons in address"
      else
        checkTail (String.mk host) 0 0

/-- The host-extraction step of `redirectToHTTPS`: the host half of
`net.SplitHostPort`, or the whole string when splitting fails (no port to
strip). -/
def stripHostPort (hostport : String) : String :=
  match splitHostPort hostport with
  | .ok (host, _) => host
  | .error _ => hostport

/-! ### Service

Embedded from `service.go`. The `targetLock` synchronises concurrent access
in the source and has no sequential content; the pointer it protects is the
`active` field. -/

/-- The `Service`: identity, options, the active target (at most one), the
pause control, and the certificate manager. -/
structure Service where
  name : String
  host : String
  options : ServiceOptions
  active : Option Target
  pauseControl : PauseControl
  certManager : Option CertManager
deriving Repr, DecidableEq

/-- `createCertManager`: no manager without a TLS hostname; otherwise an
autocert manager over the scoped cache, restricted to the configured
hostname, pointed at the configured ACME directory. -/
def Service.createCertManager (s : Service) : Option CertManager :=
  if s.options.tlsHostname == "" then
    none
  else
    some { cachePath := s.options.scopedCachePath,
           hostname := s.options.tlsHostname,
           directoryURL := s.options.acmeDirectory }

/-- `Service.initialize`: a fresh pause control (Running) and a fresh
certificate manager. -/
def Service.initialize (s : Service) : Service :=
  let s := { s with pauseControl := NewPauseControl }
  { s with certManager := s.createCertManager }

/-- `NewService(name, host, options)`. -/
def NewService (name host : String) (options : ServiceOptions) : Service :=
  Service.initialize
    { name := name, host := host, options := options,
      active := none, pauseControl := NewPauseControl, certManager := none }

/-- `Service.UpdateOptions`: install the new options and rebuild the
certificate manager. -/
def Service.updateOptions (s : Service) (options : ServiceOptions) : Service :=
  let s := { s with options := options }
  { s with certManager := s.createCertManager }

/-- `Service.ActiveTarget` (minus the read lock). -/
def Service.activeTarget (s : Service) : Option Target :=
  s.active

/-- `Service.ClaimTarget`: `StartRequest` against the active target. With no
active target the claim fails with `TargetUnavailable` (modelled from the
spec: "no active target or target is draining" is a claim failure; the nil
branch lives in the missing `target.go`). -/
def Service.claimTarget (s : Service) (r : Request) : Except ProxyErr (Target × Request) :=
  match s.active with
  | none => .error .targetUnavailable
  | some t => t.startRequest r

/-- `recordServiceNameForRequest`: when the context carries the `service`
cell, store the service's name in it; otherwise do nothing. -/
def Service.recordServiceNameForRequest (s : Service) (r : Request) : Request :=
  { r with ctx := { r.ctx with serviceSlot := r.ctx.serviceSlot.map (fun _ => s.name) } }

/-- `recordHeadersForRequest`: when the context carries the `headers` cell,
store the service's `LogHeaders` in it; otherwise do nothing. -/
def Service.recordHeadersForRequest (s : Service) (r : Request) : Request :=
  { r with ctx := { r.ctx with headersSlot := r.ctx.headersSlot.map (fun _ => s.options.logHeaders) } }

/-- The two recording steps at the top of `ServeHTTP`, in source order. -/
def Service.recordedRequest (s : Service) (r : Request) : Request :=
  s.recordHeadersForRequest (s.recordServiceNameForRequest r)

/-- `redirectToHTTPS`: a `Connection: close` header, then `http.Redirect` to
`https://` plus the port-stripped host plus the original request URI, with
status 301 Moved Permanently. -/
def Service.redirectToHTTPS (s : Service) (r : Request) (rw : ResponseRecorder) :
    ResponseRecorder :=
  let rw := rw.setHeader "Connection" "close"
  let url := "https://" ++ stripHostPort r.host ++ r.requestURI
  (rw.setHeader "Location" url).writeHeader 301

/-- The guard of the probe bypass in `handlePausedAndStoppedRequests`:
`s.pauseControl.State() != PauseStateRunning &&
s.ActiveTarget().IsHealthCheckRequest(r)`. With no active target the
health-check test is vacuously false. -/
def Service.bypassesAsProbe (s : Service) (r : Request) : Bool :=
  (s.pauseControl.state != .running) &&
    (match s.activeTarget with
     | some t => t.isHealthCheckRequest r
     | none => false)

/-- `handlePausedAndStoppedRequests`: a downstream health-check probe seen
while not Running is answered 200 immediately; otherwise the `Wait` outcome
is mapped — Unavailable to 503, TimedOut to a warning log line and 504,
Proceed falls through (`false`: not handled). -/
def Service.handlePausedAndStoppedRequests (s : Service) (r : Request)
    (waitResult : PauseWaitAction) (rw : ResponseRecorder) :
    Bool × ResponseRecorder × List LogLine :=
  if s.bypassesAsProbe r then
    (true, rw.writeHeader 200, [])
  else
    match waitResult with
    | .unavailable => (true, rw.writeHeader 503, [])
    | .timedOut =>
      (true, rw.writeHeader 504,
        [{ level := .warn, msg := "Rejecting request due to expired pause" }])
    | .proceed => (false, rw, [])

/-- The outcome of `Service.ServeHTTP`: the state of the response writer, the
log lines emitted, and — when the request was handed to `Target.SendRequest`
— the claimed target and the (context-enriched) request it received. -/
structure ServeResult where
  rw : ResponseRecorder
  logs : List LogLine
  upstream : Option (Target × Request)
deriving Repr, DecidableEq

/-- The tail of `ServeHTTP`: claim the active target; on failure answer 503
Service Unavailable without contacting the upstream, on success hand the
request to the claimed target. -/
def Service.claimAndSend (s : Service) (r : Request) (rw : ResponseRecorder) : ServeResult :=
  match s.claimTarget r with
  | .error _ =>
    { rw := rw.httpError 503 "Service not available", logs := [], upstream := none }
  | .ok (t, req) =>
    { rw := rw, logs := [], upstream := some (t, req) }

/-- `Service.ServeHTTP`: record the context cells, apply the TLS gate, the
pause barrier, then claim and send. The `Wait` outcome is an input (it
depends on timing and concurrent `Resume`/`Stop` calls). -/
def Service.serveHTTP (s : Service) (r : Request) (waitResult : PauseWaitAction) :
    ServeResult :=
  let r := s.recordedRequest r
  let rw := ResponseRecorder.new
  if s.options.requireTLS && !r.tls then
    { rw := s.redirectToHTTPS r rw, logs := [], upstream := none }
  else
    match s.handlePausedAndStoppedRequests r waitResult rw with
    | (true, rw, logs) => { rw := rw, logs := logs, upstream := none }
    | (false, rw, _) => s.claimAndSend r rw

/-! ### JSON serialisation

Embedded from `service.go`. The `marshalledService` record stands for its
JSON encoding: `encoding/json` encodes and decodes this struct of strings,
string lists and integers faithfully, so marshalling is modelled as
producing the record and unmarshalling as consuming it. -/

/-- The serialised form of a `Service`:
`{name, host, active_target, options, target_options}`. -/
structure MarshalledService where
  name : String
  host : String
  activeTarget : String
  options : ServiceOptions
  targetOptions : TargetOptions
deriving Repr, DecidableEq

/-- `Service.MarshalJSON`: name, host, the active target's address, the
service options, and the active target's options. Requires an active target
(the source dereferences it unconditionally). -/
def Service.marshalJSON (s : Service) : Option MarshalledService :=
  s.active.map (fun t =>
    { name := s.name, host := s.host, activeTarget := t.target,
      options := s.options, targetOptions := t.options })

/-- `Service.UnmarshalJSON`: restore name, host and options, rebuild the
active target via `NewTarget` and force its state to Healthy (it was healthy
when saved), then `initialize` (fresh Running pause control, fresh cert
manager). Every field of the restored service is overwritten, so the result
depends only on the serialised record. -/
def Service.unmarshalJSON (ms : MarshalledService) : Service :=
  let active := NewTarget ms.activeTarget ms.targetOptions
  let active := { active with state := TargetState.healthy }
  Service.initialize
    { name := ms.name, host := ms.host, options := ms.options,
      active := some active, pauseControl := NewPauseControl, certManager := none }

/-! ### Sample fixtures used by witnesses -/

def sampleTargetOptions : TargetOptions :=
  { healthCheckPath := "/up", healthCheckInterval := 1000000000,
    healthCheckTimeout := 5000000000, deployTimeout := 30000000000,
    maxMemoryBufferSize := 1048576, maxResponseBodySize := 1073741824,
    targetTimeout := 10000000000 }

def sampleTarget : Target :=
  { NewTarget "localhost:3000" sampleTargetOptions with state := TargetState.healthy }

def sampleOptions : ServiceOptions :=
  { tlsHostname := "", acmeDirectory := "", acmeCachePath := "", logHeaders := [] }

def sampleTLSOptions : ServiceOptions :=
  { tlsHostname := "app.example.com", acmeDirectory := "https://acme.example/directory",
    acmeCachePath := "/cache", logHeaders := [] }

def sampleRequest : Request :=
  { method := "GET", host := "app.example.com", path := "/", query := "",
    userAgent := "curl", tls := false, ctx := ⟨none, none, none⟩ }

def probeRequest : Request :=
  { method := "GET", host := "app.example.com", path := "/up", query := "",
    userAgent := proberUserAgent, tls := false, ctx := ⟨none, none, none⟩ }

def tlsRequest : Request :=
  { method := "GET", host := "app.example.com:8080", path := "/somepath", query := "q=ok",
    userAgent := "curl", tls := false, ctx := ⟨none, none, none⟩ }

def emptyService : Service :=
  NewService "svc" "app.example.com" sampleOptions

def runningService : Service :=
  { emptyService with active := some sampleTarget }

def pausedService : Service :=
  { runningService with pauseControl := { state := PauseState.paused } }

def tlsService : Service :=
  { NewService "svc" "app.example.com" sampleTLSOptions with active := some sampleTarget }

/-! ### Helper lemmas -/

/-- Recording context cells does not change the TLS flag. -/
@[simp]
theorem recordedRequest_tls (s : Service) (r : Request) :
    (s.recordedRequest r).tls = r.tls :=
  rfl

/-- Recording context cells does not change the host. -/
@[simp]
theorem recordedRequest_host (s : Service) (r : Request) :
    (s.recordedRequest r).host = r.host :=
  rfl

/-- Recording context cells does not change the request URI. -/
@[simp]
theorem recordedRequest_requestURI (s : Service) (r : Request) :
    (s.recordedRequest r).requestURI = r.requestURI :=
  rfl

/-- The probe-bypass guard only reads fields that recording preserves. -/
@[simp]
theorem bypassesAsProbe_recorded (s : Service) (r : Request) :
    s.bypassesAsProbe (s.recordedRequest r) = s.bypassesAsProbe r :=
  rfl

/-- The health-check test only reads fields that recording preserves. -/
@[simp]
theorem isHealthCheckRequest_recorded (t : Target) (s : Service) (r : Request) :
    t.isHealthCheckRequest (s.recordedRequest r) = t.isHealthCheckRequest r :=
  rfl

/-- `http.Error` stamps its status code on a fresh response. -/
theorem httpError_status_new (code : Nat) (msg : String) :
    (ResponseRecorder.new.httpError code msg).status = some code :=
  rfl

/-- When `handlePausedAndStoppedRequests` reports the request as not
handled, it leaves the response writer untouched and logs nothing. -/
theorem handlePaused_not_handled (s : Service) (r : Request) (wr : PauseWaitAction)
    (rw : ResponseRecorder)
    (h : (s.handlePausedAndStoppedRequests r wr rw).1 = false) :
    s.handlePausedAndStoppedRequests r wr rw = (false, rw, []) := by
  by_cases hb : s.bypassesAsProbe r <;> cases wr <;>
    simp [Service.handlePausedAndStoppedRequests, hb] at h ⊢

/-! ### Claim theorems -/

/-- C1: whenever the underlying buffer reports the maximum-size-exceeded
overflow error from a `bufferedResponseWriter.Write(data)` call, `Write`
returns the full requested length and no error to the downstream caller —
whatever count the buffer actually accepted. -/
theorem bufferedWrite_overflow_reports_full_length :
    (∀ (w : BufferedResponseWriter) (len : Nat),
      (w.buffer.write len).2.2 = some ProxyErr.maximumSizeExceeded →
      (w.write len).2 = (len, none)) ∧
    (∀ (dataLen n : Nat),
      bufferedWriteReturn dataLen n (some ProxyErr.maximumSizeExceeded) = (dataLen, none)) := by
  constructor
  · intro w len h
    rcases hp : w.buffer.write len with ⟨b, n, err⟩
    rw [hp] at h
    simp only at h
    subst h
    simp [BufferedResponseWriter.write, hp, bufferedWriteReturn]
  · intro dataLen n
    simp [bufferedWriteReturn]

/-- Witness for C1: a concrete overflowing write (1 byte into a buffer whose
limit is 0) reports length 1 and no error. -/
theorem bufferedWrite_overflow_reports_full_length_witness :
    ((BufferedResponseWriter.new 0 0).write 1).2 = (1, none) :=
  bufferedWrite_overflow_reports_full_length.1 (BufferedResponseWriter.new 0 0) 1 (by decide)

/-- C3 counterexample: a writer that was hijacked after the buffer had
already overflowed (5 bytes written against a 4-byte limit, then a
successful `Hijack`). `Send` is not a no-op there: it returns
`ErrMaximumSizeExceeded`, because the overflow check precedes the hijack
check. -/
theorem hijacked_overflowed_send_errors :
    (runActions true (BufferedResponseWriter.new 4 4)
        [HandlerAction.write 5, HandlerAction.hijack]).hijacked = true ∧
    ((runActions true (BufferedResponseWriter.new 4 4)
        [HandlerAction.write 5, HandlerAction.hijack]).send ResponseRecorder.new).1 =
      some ProxyErr.maximumSizeExceeded := by
  decide

/-- C3 (amended): once `Hijack` has succeeded, and provided the buffer has
not overflowed, `Send` is a no-op: no error and nothing written to the
underlying writer. (An overflowed buffer makes `Send` report
`ErrMaximumSizeExceeded` even when hijacked.) -/
theorem hijacked_send_noop (w : BufferedResponseWriter) (rw : ResponseRecorder)
    (hh : w.hijacked = true) (ho : w.buffer.overflowed = false) :
    w.send rw = (none, rw) := by
  simp [BufferedResponseWriter.send, hh, ho]

/-- Witness for the amended C3: a concrete hijacked, non-overflowed writer
(5 bytes against a 10-byte limit, then `Hijack`). -/
theorem hijacked_send_noop_witness :
    (runActions true (BufferedResponseWriter.new 10 4)
        [HandlerAction.write 5, HandlerAction.hijack]).send ResponseRecorder.new =
      (none, ResponseRecorder.new) :=
  hijacked_send_noop
    (runActions true (BufferedResponseWriter.new 10 4)
      [HandlerAction.write 5, HandlerAction.hijack])
    ResponseRecorder.new (by decide) (by decide)

/-- Running the handler never changes the buffer's size limit. -/
theorem runActions_maxBytes (sup : Bool) (as : List HandlerAction) :
    ∀ w : BufferedResponseWriter,
      (runActions sup w as).buffer.maxBytes = w.buffer.maxBytes := by
  induction as with
  | nil => intro w; rfl
  | cons a rest ih =>
    intro w
    cases a with
    | write len =>
      rw [runActions, ih]
      simp only [BufferedResponseWriter.write, Buffer.write]
      by_cases h1 : w.buffer.overflowed <;>
        by_cases h2 : w.buffer.size + len > w.buffer.maxBytes <;> simp [h1, h2]
    | writeHeader status => rw [runActions, ih]; rfl
    | hijack =>
      rw [runActions, ih]
      cases sup <;> simp [BufferedResponseWriter.hijack]

/-- Overflow is sticky across the rest of the handler's calls. -/
theorem runActions_overflow_sticky (sup : Bool) (as : List HandlerAction) :
    ∀ w : BufferedResponseWriter, w.buffer.overflowed = true →
      (runActions sup w as).buffer.overflowed = true := by
  induction as with
  | nil => intro w h; exact h
  | cons a rest ih =>
    intro w h
    cases a with
    | write len =>
      rw [runActions]
      apply ih
      simp [BufferedResponseWriter.write, Buffer.write, h]
    | writeHeader status => rw [runActions]; exact ih _ h
    | hijack =>
      rw [runActions]
      apply ih
      cases sup <;> simp [BufferedResponseWriter.hijack, h]

/-- After the handler runs against a not-yet-overflowed buffer, the buffer is
overflowed exactly when the bytes already held plus the bytes the handler
asked to write exceed the limit. -/
theorem runActions_overflowed (sup : Bool) (as : List HandlerAction) :
    ∀ w : BufferedResponseWriter, w.buffer.overflowed = false →
      w.buffer.size ≤ w.buffer.maxBytes →
      (runActions sup w as).buffer.overflowed =
        decide (w.buffer.size + totalWritten as > w.buffer.maxBytes) := by
  induction as with
  | nil =>
    intro w h hle
    have : ¬ (w.buffer.size + totalWritten [] > w.buffer.maxBytes) := by
      simp [totalWritten]
      omega
    simp [runActions, h, this]
  | cons a rest ih =>
    intro w h hle
    cases a with
    | write len =>
      rw [runActions]
      by_cases hov : w.buffer.size + len > w.buffer.maxBytes
      · have hw : ((w.write len).1).buffer.overflowed = true := by
          simp [BufferedResponseWriter.write, Buffer.write, h, hov]
        rw [runActions_overflow_sticky sup rest _ hw]
        have hgt : w.buffer.size + totalWritten (HandlerAction.write len :: rest) >
            w.buffer.maxBytes := by
          simp [totalWritten] at hov ⊢
          omega
        simp [hgt]
      · have hw1 : ((w.write len).1).buffer.overflowed = false := by
          simp [BufferedResponseWriter.write, Buffer.write, h, hov]
        have hw2 : ((w.write len).1).buffer.size = w.buffer.size + len := by
          simp [BufferedResponseWriter.write, Buffer.write, h, hov]
        have hw3 : ((w.write len).1).buffer.maxBytes = w.buffer.maxBytes := by
          simp [BufferedResponseWriter.write, Buffer.write, h, hov]
        rw [ih _ hw1 (by rw [hw2, hw3]; omega), hw2, hw3]
        have harith : w.buffer.size + len + totalWritten rest =
            w.buffer.size + totalWritten (HandlerAction.write len :: rest) := by
          simp [totalWritten]
          omega
        rw [harith]
    | writeHeader status =>
      rw [runActions, ih (w.writeHeader status) h hle]
      have harith : (w.writeHeader status).buffer.size + totalWritten rest =
          w.buffer.size + totalWritten (HandlerAction.writeHeader status :: rest) := by
        simp [totalWritten, BufferedResponseWriter.writeHeader]
      rw [harith]
      rfl
    | hijack =>
      rw [runActions]
      have hb : ((w.hijack sup).1).buffer = w.buffer := by
        cases sup <;> simp [BufferedResponseWriter.hijack]
      rw [ih _ (by rw [hb]; exact h) (by rw [hb]; exact hle), hb]
      have harith : w.buffer.size + totalWritten rest =
          w.buffer.size + totalWritten (HandlerAction.hijack :: rest) := by
        simp [totalWritten]
      rw [harith]

/-- C2: when the downstream handler's writes exceed the middleware's
`maxBytes` limit, `Send` detects the overflow, the client receives 500
Internal Server Error, and exactly one INFO log line reports that the
response exceeded the max response limit. -/
theorem responseBuffer_overflow_500 (maxMemBytes maxBytes : Nat)
    (actions : List HandlerAction) (supportsHijack : Bool)
    (h : totalWritten actions > maxBytes) :
    (ResponseBufferMiddleware.serveHTTP maxMemBytes maxBytes actions supportsHijack
        ResponseRecorder.new).1.status = some 500 ∧
    (ResponseBufferMiddleware.serveHTTP maxMemBytes maxBytes actions supportsHijack
        ResponseRecorder.new).2 =
      [{ level := LogLevel.info, msg := "Response exceeded max response limit" }] := by
  have hov : (runActions supportsHijack (BufferedResponseWriter.new maxBytes maxMemBytes)
      actions).buffer.overflowed = true := by
    rw [runActions_overflowed supportsHijack actions _ (by rfl) (by simp [BufferedResponseWriter.new, Buffer.new])]
    simpa [BufferedResponseWriter.new, Buffer.new] using h
  have hsend : (runActions supportsHijack (BufferedResponseWriter.new maxBytes maxMemBytes)
      actions).send ResponseRecorder.new = (some ProxyErr.maximumSizeExceeded,
        ResponseRecorder.new) := by
    simp [BufferedResponseWriter.send, hov]
  rw [ResponseBufferMiddleware.serveHTTP, hsend]
  exact ⟨rfl, rfl⟩

/-- Witness for C2: 5 bytes written against a 4-byte limit produce a 500 and
the single INFO log line. -/
theorem responseBuffer_overflow_500_witness :
    (ResponseBufferMiddleware.serveHTTP 2 4 [HandlerAction.write 5] false
        ResponseRecorder.new).1.status = some 500 ∧
    (ResponseBufferMiddleware.serveHTTP 2 4 [HandlerAction.write 5] false
        ResponseRecorder.new).2 =
      [{ level := LogLevel.info, msg := "Response exceeded max response limit" }] :=
  responseBuffer_overflow_500 2 4 [HandlerAction.write 5] false (by decide)

/-- C10: `UpdateOptions` replaces only the options and the certificate
manager; the pause control, the active target, and the service's identity
are untouched. -/
theorem updateOptions_frame (s : Service) (o : ServiceOptions) :
    (s.updateOptions o).pauseControl = s.pauseControl ∧
    (s.updateOptions o).active = s.active ∧
    (s.updateOptions o).name = s.name ∧
    (s.updateOptions o).host = s.host ∧
    (s.updateOptions o).options = o ∧
    (s.updateOptions o).certManager = Service.createCertManager { s with options := o } :=
  ⟨rfl, rfl, rfl, rfl, rfl, rfl⟩

/-- When the TLS gate does not fire and the pause barrier reports the request
as not handled, `ServeHTTP` reaches the claim-and-send step with an untouched
response writer. -/
theorem serveHTTP_proceeds (s : Service) (r : Request) (wr : PauseWaitAction)
    (hTLS : (s.options.requireTLS && !r.tls) = false)
    (hPause : (s.handlePausedAndStoppedRequests (s.recordedRequest r) wr
        ResponseRecorder.new).1 = false) :
    s.serveHTTP r wr = s.claimAndSend (s.recordedRequest r) ResponseRecorder.new := by
  have hp := handlePaused_not_handled _ _ _ _ hPause
  simp only [Service.serveHTTP]
  rw [show (s.options.requireTLS && !(s.recordedRequest r).tls) = false from hTLS]
  simp only [Bool.false_eq_true, if_false]
  rw [hp]

/-- C4: a request that reaches the target-claim step and fails to claim the
active target (no active target, or the target is draining) is answered 503
Service Unavailable and is never handed to an upstream target. -/
theorem serveHTTP_claim_failure_503 (s : Service) (r : Request) (wr : PauseWaitAction)
    (hTLS : (s.options.requireTLS && !r.tls) = false)
    (hPause : (s.handlePausedAndStoppedRequests (s.recordedRequest r) wr
        ResponseRecorder.new).1 = false)
    (hClaim : ∃ e, s.claimTarget (s.recordedRequest r) = Except.error e) :
    (s.serveHTTP r wr).rw.status = some 503 ∧ (s.serveHTTP r wr).upstream = none := by
  obtain ⟨e, he⟩ := hClaim
  rw [serveHTTP_proceeds s r wr hTLS hPause]
  simp [Service.claimAndSend, he, httpError_status_new]

/-- Witness for C4: a running service with no active target answers a plain
request 503 without contacting any upstream. -/
theorem serveHTTP_claim_failure_503_witness :
    (emptyService.serveHTTP sampleRequest PauseWaitAction.proceed).rw.status = some 503 ∧
    (emptyService.serveHTTP sampleRequest PauseWaitAction.proceed).upstream = none :=
  serveHTTP_claim_failure_503 emptyService sampleRequest PauseWaitAction.proceed
    (by decide) (by decide) ⟨ProxyErr.targetUnavailable, rfl⟩

/-- C5: while the pause control is not Running, a request recognised as a
downstream health check is answered 200 OK immediately and is never
forwarded upstream. -/
theorem serveHTTP_paused_probe_200 (s : Service) (r : Request) (wr : PauseWaitAction)
    (t : Target)
    (hTLS : (s.options.requireTLS && !r.tls) = false)
    (hState : s.pauseControl.state ≠ PauseState.running)
    (hActive : s.activeTarget = some t)
    (hHC : t.isHealthCheckRequest r = true) :
    (s.serveHTTP r wr).rw.status = some 200 ∧ (s.serveHTTP r wr).upstream = none := by
  have hbp : s.bypassesAsProbe (s.recordedRequest r) = true := by
    rw [bypassesAsProbe_recorded]
    simp [Service.bypassesAsProbe, hActive, hHC, bne_iff_ne, hState]
  simp only [Service.serveHTTP]
  rw [show (s.options.requireTLS && !(s.recordedRequest r).tls) = false from hTLS]
  simp only [Bool.false_eq_true, if_false]
  simp [Service.handlePausedAndStoppedRequests, hbp, ResponseRecorder.writeHeader,
    ResponseRecorder.new]

/-- Witness for C5: a paused service with a healthy active target answers the
prober's GET of the health-check path with 200 and no upstream call. -/
theorem serveHTTP_paused_probe_200_witness :
    (pausedService.serveHTTP probeRequest PauseWaitAction.unavailable).rw.status = some 200 ∧
    (pausedService.serveHTTP probeRequest PauseWaitAction.unavailable).upstream = none :=
  serveHTTP_paused_probe_200 pausedService probeRequest PauseWaitAction.unavailable
    sampleTarget (by decide) (by decide) rfl (by decide)

/-- C6: for a request the probe bypass does not intercept, the `Wait` outcome
is mapped exactly as the code's switch says: Unavailable to 503, TimedOut to
504 plus one warning log line, Proceed to the target-claiming step. -/
theorem serveHTTP_wait_mapping (s : Service) (r : Request)
    (hTLS : (s.options.requireTLS && !r.tls) = false)
    (hNoProbe : s.bypassesAsProbe r = false) :
    ((s.serveHTTP r PauseWaitAction.unavailable).rw.status = some 503 ∧
      (s.serveHTTP r PauseWaitAction.unavailable).upstream = none) ∧
    ((s.serveHTTP r PauseWaitAction.timedOut).rw.status = some 504 ∧
      (s.serveHTTP r PauseWaitAction.timedOut).upstream = none ∧
      (s.serveHTTP r PauseWaitAction.timedOut).logs =
        [{ level := LogLevel.warn, msg := "Rejecting request due to expired pause" }]) ∧
    (s.serveHTTP r PauseWaitAction.proceed =
      s.claimAndSend (s.recordedRequest r) ResponseRecorder.new) := by
  have hbp : s.bypassesAsProbe (s.recordedRequest r) = false := by
    rw [bypassesAsProbe_recorded]; exact hNoProbe
  refine ⟨?_, ?_, ?_⟩
  · simp only [Service.serveHTTP]
    rw [show (s.options.requireTLS && !(s.recordedRequest r).tls) = false from hTLS]
    simp only [Bool.false_eq_true, if_false]
    simp [Service.handlePausedAndStoppedRequests, hbp, ResponseRecorder.writeHeader,
      ResponseRecorder.new]
  · simp only [Service.serveHTTP]
    rw [show (s.options.requireTLS && !(s.recordedRequest r).tls) = false from hTLS]
    simp only [Bool.false_eq_true, if_false]
    simp [Service.handlePausedAndStoppedRequests, hbp, ResponseRecorder.writeHeader,
      ResponseRecorder.new]
  · apply serveHTTP_proceeds s r PauseWaitAction.proceed hTLS
    simp [Service.handlePausedAndStoppedRequests, hbp]

/-- Witness for C6: a running service with an active target, on a plain
request, under each of the three `Wait` outcomes. -/
theorem serveHTTP_wait_mapping_witness :
    ((runningService.serveHTTP sampleRequest PauseWaitAction.unavailable).rw.status = some 503 ∧
      (runningService.serveHTTP sampleRequest PauseWaitAction.unavailable).upstream = none) ∧
    ((runningService.serveHTTP sampleRequest PauseWaitAction.timedOut).rw.status = some 504 ∧
      (runningService.serveHTTP sampleRequest PauseWaitAction.timedOut).upstream = none ∧
      (runningService.serveHTTP sampleRequest PauseWaitAction.timedOut).logs =
        [{ level := LogLevel.warn, msg := "Rejecting request due to expired pause" }]) ∧
    (runningService.serveHTTP sampleRequest PauseWaitAction.proceed =
      runningService.claimAndSend (runningService.recordedRequest sampleRequest)
        ResponseRecorder.new) :=
  serveHTTP_wait_mapping runningService sampleRequest (by decide) (by decide)

/-- C7: a non-TLS request to a service that requires TLS is answered 301
Moved Permanently with a `Connection: close` header and a Location of scheme
`https`, the request host with any port stripped, and the original request
URI (path and query); no upstream is contacted. -/
theorem serveHTTP_tls_redirect (s : Service) (r : Request) (wr : PauseWaitAction)
    (hHost : s.options.tlsHostname ≠ "")
    (hPlain : r.tls = false) :
    (s.serveHTTP r wr).rw.status = some 301 ∧
    (s.serveHTTP r wr).rw.getHeader "Connection" = some "close" ∧
    (s.serveHTTP r wr).rw.getHeader "Location" =
      some ("https://" ++ stripHostPort r.host ++ r.requestURI) ∧
    (s.serveHTTP r wr).upstream = none := by
  have hc : (s.options.requireTLS && !(s.recordedRequest r).tls) = true := by
    simp [ServiceOptions.requireTLS, recordedRequest_tls, hPlain, bne_iff_ne, hHost]
  simp only [Service.serveHTTP]
  rw [hc]
  simp only [if_true]
  simp [Service.redirectToHTTPS, ResponseRecorder.setHeader, ResponseRecorder.writeHeader,
    ResponseRecorder.new, ResponseRecorder.getHeader, List.find?,
    recordedRequest_host, recordedRequest_requestURI]

/-- Witness for C7: a plain-HTTP request with host `app.example.com:8080` to
a TLS-requiring service. -/
theorem serveHTTP_tls_redirect_witness :
    (tlsService.serveHTTP tlsRequest PauseWaitAction.proceed).rw.status = some 301 ∧
    (tlsService.serveHTTP tlsRequest PauseWaitAction.proceed).rw.getHeader "Connection" =
      some "close" ∧
    (tlsService.serveHTTP tlsRequest PauseWaitAction.proceed).rw.getHeader "Location" =
      some ("https://" ++ stripHostPort tlsRequest.host ++ tlsRequest.requestURI) ∧
    (tlsService.serveHTTP tlsRequest PauseWaitAction.proceed).upstream = none :=
  serveHTTP_tls_redirect tlsService tlsRequest PauseWaitAction.proceed (by decide) rfl

/-- C8: a service with an active target round-trips through its serialised
form: name, host and options are preserved, the restored active target keeps
the address and options and comes back Healthy, and the pause control is
re-initialised to Running. -/
theorem service_json_roundtrip (s : Service) (t : Target) (h : s.active = some t) :
    ∃ ms, s.marshalJSON = some ms ∧
      (Service.unmarshalJSON ms).name = s.name ∧
      (Service.unmarshalJSON ms).host = s.host ∧
      (Service.unmarshalJSON ms).options = s.options ∧
      (∃ t2, (Service.unmarshalJSON ms).active = some t2 ∧
        t2.address = t.address ∧ t2.options = t.options ∧
        t2.state = TargetState.healthy) ∧
      (Service.unmarshalJSON ms).pauseControl.state = PauseState.running := by
  refine ⟨{ name := s.name, host := s.host, activeTarget := t.target,
            options := s.options, targetOptions := t.options }, ?_, rfl, rfl, rfl,
          ⟨_, rfl, rfl, rfl, rfl⟩, rfl⟩
  simp [Service.marshalJSON, h]

/-- Witness for C8: the round-trip at a concrete service with a healthy
active target. -/
theorem service_json_roundtrip_witness :
    ∃ ms, runningService.marshalJSON = some ms ∧
      (Service.unmarshalJSON ms).name = runningService.name ∧
      (Service.unmarshalJSON ms).host = runningService.host ∧
      (Service.unmarshalJSON ms).options = runningService.options ∧
      (∃ t2, (Service.unmarshalJSON ms).active = some t2 ∧
        t2.address = sampleTarget.address ∧ t2.options = sampleTarget.options ∧
        t2.state = TargetState.healthy) ∧
      (Service.unmarshalJSON ms).pauseControl.state = PauseState.running :=
  service_json_roundtrip runningService sampleTarget rfl

/-- C9: the context-recording steps are total and optional: an absent
`service` or `headers` cell leaves the request untouched, and a present cell
receives the service's name, respectively its `LogHeaders` list. -/
theorem record_context_slots (s : Service) (r : Request) :
    ((s.recordServiceNameForRequest r).ctx.serviceSlot =
      r.ctx.serviceSlot.map (fun _ => s.name)) ∧
    ((s.recordHeadersForRequest r).ctx.headersSlot =
      r.ctx.headersSlot.map (fun _ => s.options.logHeaders)) ∧
    (r.ctx.serviceSlot = none → s.recordServiceNameForRequest r = r) ∧
    (r.ctx.headersSlot = none → s.recordHeadersForRequest r = r) := by
  obtain ⟨m, ho, p, q, ua, tl, ⟨ss, ts, hs⟩⟩ := r
  refine ⟨rfl, rfl, ?_, ?_⟩
  · intro h
    simp only at h
    subst h
    rfl
  · intro h
    simp only at h
    subst h
    rfl

/-- Witness for C9: with both cells absent, both recording steps are
identities on a concrete request. -/
theorem record_context_slots_witness :
    emptyService.recordServiceNameForRequest sampleRequest = sampleRequest ∧
    emptyService.recordHeadersForRequest sampleRequest = sampleRequest :=
  ⟨(record_context_slots emptyService sampleRequest).2.2.1 rfl,
   (record_context_slots emptyService sampleRequest).2.2.2 rfl⟩

end Server
